import Mathlib

/-!
Shallow embedding of the two wrapper classes of this repository:
`EmailAgent` (src/backend/email_agent_example.py) and `MessagingAgent`
(src/backend/messaging_agent_example.py).

External effects are modelled explicitly:
* the environment (`os.getenv`) is a record of optional strings;
* each blocking provider/transport interaction is an oracle parameter whose
  outcome is an `Except` value (`.error` models a raised exception);
* every public operation returns its Python return value together with the
  list/count of provider calls it attempted and the post-state of the
  wrapper object, so that absence of network attempts and frame conditions
  are statable.
-/

/-- Python truthiness of an optional string: `None` and `""` are falsy
(`if not self.email_address`, `if not self.from_number`, ...). -/
def pyFalsyStr : Option String → Bool
  | none => true
  | some s => s == ""

/-- Digits-only parse used to model Python `int(...)` on the digit part. -/
def parseDigits : List Char → Option Nat
  | [] => none
  | cs =>
    if cs.all Char.isDigit then
      some (cs.foldl (fun n c => 10 * n + (c.toNat - 48)) 0)
    else none

/-- Model of Python `int(s)` on a string: optional surrounding spaces, an
optional sign, then at least one decimal digit; anything else raises
`ValueError`, modelled as `none`. -/
def pyParseInt (s : String) : Option Int :=
  let cs := ((s.toList.dropWhile (fun c => c == ' ')).reverse.dropWhile
    (fun c => c == ' ')).reverse
  match cs with
  | '+' :: rest => (parseDigits rest).map Int.ofNat
  | '-' :: rest => (parseDigits rest).map (fun n => -(Int.ofNat n))
  | rest => (parseDigits rest).map Int.ofNat

/-- Python slice `l[-n:]` for an arbitrary integer `n`:
for `n > 0` the last `min n (length l)` elements; for `n = 0` the whole
list (since `-0 == 0`); for `n < 0` it is `l[(-n):]`. -/
def pySliceLast (l : List α) (n : Int) : List α :=
  if 0 < n then l.drop (l.length - n.toNat) else l.drop (-n).toNat

/-- Python string slice `s[:n]`. -/
def pyStrTake (s : String) (n : Nat) : String :=
  (s.toList.take n).asString

/-! ## Email wrapper (src/backend/email_agent_example.py) -/

/-- The environment keys read by the email wrapper. -/
structure EmailEnv where
  SMTP_SERVER : Option String
  SMTP_PORT : Option String
  EMAIL_ADDRESS : Option String
  EMAIL_PASSWORD : Option String
  IMAP_SERVER : Option String
  IMAP_PORT : Option String
deriving DecidableEq, Repr

/-- The fields set by `EmailAgent.__init__`. -/
structure EmailAgent where
  smtp_server : String
  smtp_port : Int
  email_address : Option String
  email_password : Option String
deriving DecidableEq, Repr

/-- `EmailAgent.__init__`: reads the environment; `int(os.getenv("SMTP_PORT",
"587"))` raises `ValueError` on a malformed port (modelled as `.error ()`).
On success returns the constructed agent together with `true` iff the
"credentials not set" warning was printed. -/
def EmailAgent.init (env : EmailEnv) : Except Unit (EmailAgent × Bool) :=
  match pyParseInt (env.SMTP_PORT.getD "587") with
  | none => .error ()
  | some port =>
    let a : EmailAgent :=
      { smtp_server := env.SMTP_SERVER.getD "smtp.gmail.com"
        smtp_port := port
        email_address := env.EMAIL_ADDRESS
        email_password := env.EMAIL_PASSWORD }
    .ok (a, pyFalsyStr a.email_address || pyFalsyStr a.email_password)

/-- `not self.email_address or not self.email_password`. -/
def EmailAgent.unconfigured (a : EmailAgent) : Bool :=
  pyFalsyStr a.email_address || pyFalsyStr a.email_password

/-- The MIME message assembled by `send_email` before transmitting. -/
structure MimeMsg where
  from_h : Option String
  to_h : String
  subject_h : String
  contentSubtype : String
  content : String
deriving DecidableEq, Repr

/-- `EmailAgent.send_email`: short-circuits to `False` when unconfigured
(no transport attempt); otherwise builds the message and runs `_send_sync`
(the `transport` oracle) inside `try`, returning `True` on success and
`False` on any exception.  Result: (return value, number of transport
attempts, post-state of the object). -/
def EmailAgent.send_email (a : EmailAgent) (to_a subject body : String)
    (is_html : Bool) (transport : MimeMsg → Except Unit Unit) :
    Bool × Nat × EmailAgent :=
  if pyFalsyStr a.email_address || pyFalsyStr a.email_password then
    (false, 0, a)
  else
    let msg : MimeMsg :=
      { from_h := a.email_address
        to_h := to_a
        subject_h := subject
        contentSubtype := if is_html then "html" else "plain"
        content := body }
    match transport msg with
    | .ok _ => (true, 1, a)
    | .error _ => (false, 1, a)

/-- Decidable equality for `Except`, used by the derived instances below. -/
instance [DecidableEq e] [DecidableEq a] : DecidableEq (Except e a) := fun x y =>
  match x, y with
  | .error u, .error v =>
    if h : u = v then .isTrue (by rw [h]) else .isFalse (by simp [h])
  | .error _, .ok _ => .isFalse (by simp)
  | .ok _, .error _ => .isFalse (by simp)
  | .ok u, .ok v =>
    if h : u = v then .isTrue (by rw [h]) else .isFalse (by simp [h])

/-- Body structure of a fetched message: a multipart message is a list of
parts (content type, decoded payload or a decode exception); a simple
message is one payload (or a decode exception). -/
inductive EmailContent where
  | multipart (parts : List (String × Except Unit String))
  | simple (payload : Except Unit String)
deriving DecidableEq, Repr

/-- A message as parsed from a successful `fetch`: decoding the subject can
itself raise (`decode_header` / `bytes.decode`), hence `Except`. -/
structure RawEmail where
  subject : Except Unit String
  from_addr : Option String
  date : Option String
  content : EmailContent
deriving DecidableEq, Repr

/-- The dict appended for each processed message. -/
structure EmailSummary where
  from_addr : Option String
  subject : String
  body : String
  date : Option String
deriving DecidableEq, Repr

/-- Body extraction of `_read_emails_sync`: for a multipart message the
first `text/plain` part is decoded (a decode failure raises); if no such
part exists, `body` stays `""`.  A simple message decodes its payload. -/
def extractBody : EmailContent → Except Unit String
  | .multipart parts =>
    match parts.find? (fun p => p.1 == "text/plain") with
    | none => .ok ""
    | some p => p.2
  | .simple payload => payload

/-- Per-message processing of `_read_emails_sync`: decode the subject, get
the sender, extract the body and truncate it to 500 characters
(`body[:500]`). Any raised exception is propagated to the surrounding
`try`. -/
def summarizeEmail (raw : RawEmail) : Except Unit EmailSummary :=
  match raw.subject with
  | .error e => .error e
  | .ok subj =>
    match extractBody raw.content with
    | .error e => .error e
    | .ok body =>
      .ok { from_addr := raw.from_addr
            subject := subj
            body := pyStrTake body 500
            date := raw.date }

/-- Fetch one id and summarize it; either step can raise. -/
def fetchSummarize (fetch : Nat → Except Unit RawEmail) (id : Nat) :
    Except Unit EmailSummary :=
  match fetch id with
  | .error e => .error e
  | .ok raw => summarizeEmail raw

/-- The `for email_id in email_ids[-limit:]` loop: appends summaries in
order; the first raised exception aborts the loop and the surrounding
`except` returns the list accumulated so far. -/
def processIds (fetch : Nat → Except Unit RawEmail) :
    List Nat → List EmailSummary → List EmailSummary
  | [], acc => acc
  | id :: rest, acc =>
    match fetchSummarize fetch id with
    | .error _ => acc
    | .ok s => processIds fetch rest (acc ++ [s])

/-- Oracle for one IMAP session: outcomes of connect (`IMAP4_SSL`), login,
`select("inbox")`, `search(None, "ALL")` (the message ids, in mailbox
order, oldest first) and of each `fetch`. -/
structure ImapWorld where
  connect : Except Unit Unit
  login : Except Unit Unit
  selectInbox : Except Unit Unit
  search : Except Unit (List Nat)
  fetch : Nat → Except Unit RawEmail

/-- `EmailAgent._read_emails_sync`: the whole session runs inside `try`;
any exception is caught and the accumulated `emails` list is returned.
Result: (emails, number of network session attempts, post-state). -/
def EmailAgent.read_emails_sync (a : EmailAgent) (w : ImapWorld)
    (limit : Int) : List EmailSummary × Nat × EmailAgent :=
  match w.connect with
  | .error _ => ([], 1, a)
  | .ok _ =>
    match w.login with
    | .error _ => ([], 1, a)
    | .ok _ =>
      match w.selectInbox with
      | .error _ => ([], 1, a)
      | .ok _ =>
        match w.search with
        | .error _ => ([], 1, a)
        | .ok ids => (processIds w.fetch (pySliceLast ids limit) [], 1, a)

/-- `EmailAgent.read_emails`: inside `try`, reads `IMAP_SERVER` and
`int(os.getenv("IMAP_PORT", "993"))` (a malformed port raises and the
outer `except` returns `[]`), short-circuits to `[]` when unconfigured,
otherwise offloads `_read_emails_sync`. -/
def EmailAgent.read_emails (a : EmailAgent) (env : EmailEnv)
    (w : ImapWorld) (limit : Int) : List EmailSummary × Nat × EmailAgent :=
  match pyParseInt (env.IMAP_PORT.getD "993") with
  | none => ([], 0, a)
  | some _ =>
    if pyFalsyStr a.email_address || pyFalsyStr a.email_password then
      ([], 0, a)
    else a.read_emails_sync w limit

/-! ## Messaging wrapper (src/backend/messaging_agent_example.py) -/

/-- The environment keys read by the messaging wrapper. -/
structure MessagingEnv where
  TWILIO_ACCOUNT_SID : Option String
  TWILIO_AUTH_TOKEN : Option String
  TWILIO_PHONE_NUMBER : Option String
deriving DecidableEq, Repr

/-- The authenticated client handle (`TwilioClient(account_sid,
auth_token)`). -/
structure TwilioHandle where
  account_sid : String
  auth_token : String
deriving DecidableEq, Repr

/-- The fields set by `MessagingAgent.__init__`. -/
structure MessagingAgent where
  client : Option TwilioHandle
  from_number : Option String
deriving DecidableEq, Repr

/-- `MessagingAgent.__init__`: when the SDK is unavailable the client stays
`None`; otherwise the client is constructed iff both `TWILIO_ACCOUNT_SID`
and `TWILIO_AUTH_TOKEN` are truthy. -/
def MessagingAgent.init (twilioAvailable : Bool) (env : MessagingEnv) :
    MessagingAgent :=
  if !twilioAvailable then { client := none, from_number := none }
  else
    let account_sid := env.TWILIO_ACCOUNT_SID
    let auth_token := env.TWILIO_AUTH_TOKEN
    if !pyFalsyStr account_sid && !pyFalsyStr auth_token then
      { client := some { account_sid := account_sid.getD ""
                         auth_token := auth_token.getD "" }
        from_number := env.TWILIO_PHONE_NUMBER }
    else { client := none, from_number := env.TWILIO_PHONE_NUMBER }

/-- The provider message object: `msg.sid` etc. -/
structure TwilioMsg where
  sid : String
  from_tw : String
  to_num : String
  body : String
  date_sent : String
  status : String
deriving DecidableEq, Repr

/-- Arguments of one `client.messages.create(body=..., from_=..., to=...)`
call. -/
structure CreateCall where
  body : String
  from_tw : String
  to_num : String
deriving DecidableEq, Repr

/-- `MessagingAgent.send_sms`: requires an initialized client and a truthy
sender number; `_send_sms_sync` is the `provider` oracle, returning
`None`, a message object, or raising.  `if msg and msg.sid:` decides the
boolean.  Result: (return value, create calls attempted, post-state). -/
def MessagingAgent.send_sms (a : MessagingAgent) (to_a message : String)
    (provider : CreateCall → Except Unit (Option TwilioMsg)) :
    Bool × List CreateCall × MessagingAgent :=
  match a.client with
  | none => (false, [], a)
  | some _ =>
    if pyFalsyStr a.from_number then (false, [], a)
    else
      let call : CreateCall :=
        { body := message, from_tw := a.from_number.getD "", to_num := to_a }
      match provider call with
      | .error _ => (false, [call], a)
      | .ok none => (false, [call], a)
      | .ok (some m) => (!(m.sid == ""), [call], a)

/-- `MessagingAgent.send_whatsapp`: identical to `send_sms` except that
both identifiers are prefixed with `whatsapp:` before dispatch
(`whatsapp_from` is `None` when the sender number is falsy, which
short-circuits to `False`). -/
def MessagingAgent.send_whatsapp (a : MessagingAgent) (to_a message : String)
    (provider : CreateCall → Except Unit (Option TwilioMsg)) :
    Bool × List CreateCall × MessagingAgent :=
  match a.client with
  | none => (false, [], a)
  | some _ =>
    let whatsapp_from : Option String :=
      if !pyFalsyStr a.from_number then
        some ("whatsapp:" ++ a.from_number.getD "")
      else none
    let whatsapp_to := "whatsapp:" ++ to_a
    match whatsapp_from with
    | none => (false, [], a)
    | some wf =>
      let call : CreateCall :=
        { body := message, from_tw := wf, to_num := whatsapp_to }
      match provider call with
      | .error _ => (false, [call], a)
      | .ok none => (false, [call], a)
      | .ok (some m) => (!(m.sid == ""), [call], a)

/-- The dict appended for each retrieved provider message. -/
structure MsgSummary where
  from_tw : String
  to_num : String
  body : String
  date : String
  status : String
deriving DecidableEq, Repr

/-- The per-message mapping of `_get_messages_sync`. -/
def summarizeTwilio (m : TwilioMsg) : MsgSummary :=
  { from_tw := m.from_tw
    to_num := m.to_num
    body := m.body
    date := m.date_sent
    status := m.status }

/-- `MessagingAgent._get_messages_sync`: `client.messages.list(limit=...)`
runs inside `try`; on an exception the accumulated (empty) list is
returned, otherwise every listed message is mapped to a summary dict. -/
def MessagingAgent.get_messages_sync (a : MessagingAgent)
    (listProvider : Int → Except Unit (List TwilioMsg)) (limit : Int) :
    List MsgSummary × Nat × MessagingAgent :=
  match listProvider limit with
  | .error _ => ([], 1, a)
  | .ok msgs => (msgs.map summarizeTwilio, 1, a)

/-- `MessagingAgent.get_messages`: only the client is checked (`if not
self.client:`); the sender number does not gate retrieval. -/
def MessagingAgent.get_messages (a : MessagingAgent)
    (listProvider : Int → Except Unit (List TwilioMsg)) (limit : Int) :
    List MsgSummary × Nat × MessagingAgent :=
  match a.client with
  | none => ([], 0, a)
  | some _ => a.get_messages_sync listProvider limit

/-! ## Derived definitions and concrete instances used in the theorems -/

/-- The ids a session yields when it reaches the loop: `some ids` iff
connect, login, select and search all succeed. -/
def sessionIds (w : ImapWorld) : Option (List Nat) :=
  match w.connect, w.login, w.selectInbox, w.search with
  | .ok _, .ok _, .ok _, .ok ids => some ids
  | _, _, _, _ => none

/-- The summaries of the longest prefix of `ids` on which fetching and
summarizing succeed: what the loop of `_read_emails_sync` has accumulated
when the first exception (if any) is raised. -/
def okPrefixSummaries (fetch : Nat → Except Unit RawEmail) :
    List Nat → List EmailSummary
  | [] => []
  | id :: rest =>
    match fetchSummarize fetch id with
    | .error _ => []
    | .ok s => s :: okPrefixSummaries fetch rest

/-- A fully configured email agent, for concrete runs. -/
def cfgAgent : EmailAgent :=
  { smtp_server := "smtp.gmail.com"
    smtp_port := 587
    email_address := some "me@example.com"
    email_password := some "pw" }

/-- An environment with credentials set and default ports. -/
def cfgEnv : EmailEnv :=
  { SMTP_SERVER := none
    SMTP_PORT := none
    EMAIL_ADDRESS := some "me@example.com"
    EMAIL_PASSWORD := some "pw"
    IMAP_SERVER := none
    IMAP_PORT := none }

/-- An environment with no credentials and a malformed SMTP_PORT. -/
def badPortEnv : EmailEnv :=
  { SMTP_SERVER := none
    SMTP_PORT := some "abc"
    EMAIL_ADDRESS := none
    EMAIL_PASSWORD := none
    IMAP_SERVER := none
    IMAP_PORT := none }

/-- A message that parses and summarizes without any fault. -/
def rawOk1 : RawEmail :=
  { subject := .ok "hello"
    from_addr := some "alice@example.com"
    date := some "Mon, 1 Jan 2024"
    content := .simple (.ok "body one") }

/-- A message whose subject decoding raises. -/
def rawBadSubject : RawEmail :=
  { subject := .error ()
    from_addr := some "bob@example.com"
    date := some "Tue, 2 Jan 2024"
    content := .simple (.ok "body two") }

/-- The summary produced for `rawOk1`. -/
def sumOk1 : EmailSummary :=
  { from_addr := some "alice@example.com"
    subject := "hello"
    body := "body one"
    date := some "Mon, 1 Jan 2024" }

/-- A session where message 1 processes fine and message 2 hits a decode
error while being processed. -/
def wDecodeFault : ImapWorld :=
  { connect := .ok ()
    login := .ok ()
    selectInbox := .ok ()
    search := .ok [1, 2]
    fetch := fun id => if id == 1 then .ok rawOk1 else .ok rawBadSubject }

/-- A session where message 1 processes fine and the transport `fetch` of
message 2 raises. -/
def wFetchFault : ImapWorld :=
  { connect := .ok ()
    login := .ok ()
    selectInbox := .ok ()
    search := .ok [1, 2]
    fetch := fun id => if id == 1 then .ok rawOk1 else .error () }

/-- A fault-free session holding three messages. -/
def wThree : ImapWorld :=
  { connect := .ok ()
    login := .ok ()
    selectInbox := .ok ()
    search := .ok [1, 2, 3]
    fetch := fun _ => .ok rawOk1 }

/-- A 501-character body. -/
def longBody : String := String.mk (List.replicate 501 'a')

/-- A fault-free message whose body is longer than 500 characters. -/
def rawLong : RawEmail :=
  { subject := .ok "long"
    from_addr := some "carol@example.com"
    date := some "Wed, 3 Jan 2024"
    content := .simple (.ok longBody) }

/-- A fault-free session holding only the long message. -/
def wLong : ImapWorld :=
  { connect := .ok ()
    login := .ok ()
    selectInbox := .ok ()
    search := .ok [7]
    fetch := fun _ => .ok rawLong }

/-- A multipart message with an HTML part and no `text/plain` part. -/
def rawHtmlOnly : RawEmail :=
  { subject := .ok "html only"
    from_addr := some "dave@example.com"
    date := some "Thu, 4 Jan 2024"
    content := .multipart [("text/html", .ok "<p>hi</p>")] }

/-- A fault-free session holding only the HTML-only message. -/
def wHtmlOnly : ImapWorld :=
  { connect := .ok ()
    login := .ok ()
    selectInbox := .ok ()
    search := .ok [4]
    fetch := fun _ => .ok rawHtmlOnly }

/-- An authenticated client handle for concrete runs. -/
def cHandle : TwilioHandle := { account_sid := "AC123", auth_token := "tok" }

/-- A messaging agent with an initialized client but no sender number. -/
def mNoFrom : MessagingAgent := { client := some cHandle, from_number := none }

/-- A provider message with a non-empty sid. -/
def twMsg1 : TwilioMsg :=
  { sid := "SM1"
    from_tw := "+15550000001"
    to_num := "+15550000002"
    body := "hey"
    date_sent := "2024-01-01"
    status := "received" }

/-- A list oracle that returns one message. -/
def listOne : Int → Except Unit (List TwilioMsg) := fun _ => .ok [twMsg1]

/-- A session whose connect step raises. -/
def wConnectFail : ImapWorld :=
  { connect := .error ()
    login := .ok ()
    selectInbox := .ok ()
    search := .ok [1]
    fetch := fun _ => .ok rawOk1 }

/-- The summary produced for `rawLong`: its body holds exactly the first
500 characters. -/
def sumLong : EmailSummary :=
  { from_addr := some "carol@example.com"
    subject := "long"
    body := String.mk (List.replicate 500 'a')
    date := some "Wed, 3 Jan 2024" }

/-- The summary produced for `rawHtmlOnly`: its body is empty. -/
def sumHtmlOnly : EmailSummary :=
  { from_addr := some "dave@example.com"
    subject := "html only"
    body := ""
    date := some "Thu, 4 Jan 2024" }

/-- An unconfigured email agent, for concrete runs. -/
def bareAgent : EmailAgent :=
  { smtp_server := "smtp.gmail.com"
    smtp_port := 587
    email_address := none
    email_password := none }

/-! ## Helper lemmas -/

theorem processIds_eq_append (f : Nat → Except Unit RawEmail)
    (ids : List Nat) : ∀ acc,
    processIds f ids acc = acc ++ okPrefixSummaries f ids := by
  induction ids with
  | nil => intro acc; simp [processIds, okPrefixSummaries]
  | cons id rest ih =>
    intro acc
    simp only [processIds, okPrefixSummaries]
    cases h : fetchSummarize f id with
    | error e => simp
    | ok s => simp [ih]

theorem mem_okPrefixSummaries {f : Nat → Except Unit RawEmail}
    {s : EmailSummary} : ∀ {ids : List Nat},
    s ∈ okPrefixSummaries f ids →
    ∃ id, id ∈ ids ∧ fetchSummarize f id = .ok s := by
  intro ids
  induction ids with
  | nil => intro h; simp [okPrefixSummaries] at h
  | cons id rest ih =>
    intro h
    simp only [okPrefixSummaries] at h
    cases hf : fetchSummarize f id with
    | error e => rw [hf] at h; simp at h
    | ok s0 =>
      rw [hf] at h
      rcases List.mem_cons.mp h with h1 | h1
      · exact ⟨id, List.mem_cons_self id rest, by rw [hf, h1]⟩
      · rcases ih h1 with ⟨id1, hmem, heq⟩
        exact ⟨id1, List.mem_cons_of_mem id hmem, heq⟩

theorem read_emails_sync_fst (a : EmailAgent) (w : ImapWorld)
    (limit : Int) :
    (a.read_emails_sync w limit).1 =
      (match sessionIds w with
      | none => []
      | some ids => okPrefixSummaries w.fetch (pySliceLast ids limit)) := by
  unfold EmailAgent.read_emails_sync sessionIds
  cases w.connect <;> cases w.login <;> cases w.selectInbox <;>
    cases w.search <;> simp [processIds_eq_append]

theorem mem_read_emails {a : EmailAgent} {env : EmailEnv} {w : ImapWorld}
    {limit : Int} {s : EmailSummary}
    (h : s ∈ (a.read_emails env w limit).1) :
    ∃ id raw, w.fetch id = .ok raw ∧ summarizeEmail raw = .ok s := by
  unfold EmailAgent.read_emails at h
  rcases hp : pyParseInt (env.IMAP_PORT.getD "993") with _ | p <;> rw [hp] at h
  · simp at h
  · by_cases hc : (pyFalsyStr a.email_address || pyFalsyStr a.email_password) = true
    · rw [if_pos hc] at h; simp at h
    · rw [if_neg hc, read_emails_sync_fst] at h
      rcases hs : sessionIds w with _ | ids <;> rw [hs] at h
      · simp at h
      · rcases mem_okPrefixSummaries h with ⟨id, _, hfs⟩
        unfold fetchSummarize at hfs
        rcases hf : w.fetch id with _ | raw <;> rw [hf] at hfs
        · simp at hfs
        · exact ⟨id, raw, hf, hfs⟩

theorem read_emails_fst_char (a : EmailAgent) (env : EmailEnv)
    (w : ImapWorld) (limit : Int)
    (hconf : a.unconfigured = false)
    (hport : pyParseInt (env.IMAP_PORT.getD "993") ≠ none) :
    (a.read_emails env w limit).1 =
      (match sessionIds w with
      | none => []
      | some ids => okPrefixSummaries w.fetch (pySliceLast ids limit)) := by
  unfold EmailAgent.unconfigured at hconf
  unfold EmailAgent.read_emails
  rcases hp : pyParseInt (env.IMAP_PORT.getD "993") with _ | p
  · exact absurd hp hport
  · rw [if_neg (by simp [hconf])]
    exact read_emails_sync_fst a w limit

theorem pyStrTake_toList (s : String) (n : Nat) :
    (pyStrTake s n).toList = s.toList.take n := by
  unfold pyStrTake
  exact List.toList_asString _

theorem pyStrTake_of_le (s : String) (n : Nat)
    (h : s.toList.length ≤ n) : pyStrTake s n = s := by
  unfold pyStrTake
  rw [List.take_of_length_le h]
  exact String.asString_toList s

/-! ## Claims -/

/-- Claim C4, counterexample: with no credentials set but SMTP_PORT set to
the non-numeric string "abc", `int(os.getenv("SMTP_PORT", "587"))` raises
`ValueError` and construction of the email wrapper fails instead of
succeeding with a warning. -/
theorem email_init_bad_port_fails :
    EmailAgent.init badPortEnv = .error () ∧
    badPortEnv.EMAIL_ADDRESS = none ∧ badPortEnv.EMAIL_PASSWORD = none := by
  decide

/-- Claim C4 (amended): for every environment in which the email
credentials are absent and whose SMTP_PORT value (default "587") parses as
an integer, construction succeeds, the "credentials not set" warning is
emitted, and the resulting wrapper is unconfigured. -/
theorem email_init_missing_creds_succeeds (env : EmailEnv)
    (hcred : env.EMAIL_ADDRESS = none ∨ env.EMAIL_PASSWORD = none)
    (hport : pyParseInt (env.SMTP_PORT.getD "587") ≠ none) :
    ∃ a, EmailAgent.init env = .ok (a, true) ∧ a.unconfigured = true := by
  have hb : (pyFalsyStr env.EMAIL_ADDRESS || pyFalsyStr env.EMAIL_PASSWORD)
      = true := by
    rcases hcred with h1 | h1 <;> rw [h1] <;> simp [pyFalsyStr]
  unfold EmailAgent.init
  rcases hp : pyParseInt (env.SMTP_PORT.getD "587") with _ | port
  · exact absurd hp hport
  · refine ⟨⟨env.SMTP_SERVER.getD "smtp.gmail.com", port,
      env.EMAIL_ADDRESS, env.EMAIL_PASSWORD⟩, ?_, ?_⟩
    · show Except.ok
        (_, pyFalsyStr env.EMAIL_ADDRESS || pyFalsyStr env.EMAIL_PASSWORD) = _
      rw [hb]
    · show (pyFalsyStr env.EMAIL_ADDRESS || pyFalsyStr env.EMAIL_PASSWORD)
        = true
      exact hb

/-- Claim C4 witness: the amended statement applied to the all-absent
environment. -/
theorem email_init_missing_creds_witness :
    ∃ a, EmailAgent.init
      { SMTP_SERVER := none, SMTP_PORT := none, EMAIL_ADDRESS := none,
        EMAIL_PASSWORD := none, IMAP_SERVER := none, IMAP_PORT := none }
      = .ok (a, true) ∧ a.unconfigured = true :=
  email_init_missing_creds_succeeds _ (Or.inl rfl) (by decide)

/-- Claim C5 (code bug): with `limit = 0` the slice `email_ids[-limit:]`
is the whole id list, so `read_emails` returns a summary for every message
in the mailbox (three here) instead of at most `limit = 0`. -/
theorem email_read_limit_zero_returns_all :
    (cfgAgent.read_emails cfgEnv wThree 0).1.length = 3 ∧
    ¬ ((cfgAgent.read_emails cfgEnv wThree 0).1.length ≤ 0) := by
  decide

/-- Claim C6: with an initialized client and a truthy sender number, the
single provider call dispatched by `send_whatsapp` carries exactly the
sender and recipient prefixed with the literal "whatsapp:" tag. -/
theorem whatsapp_call_tagged (a : MessagingAgent) (to_a message : String)
    (provider : CreateCall → Except Unit (Option TwilioMsg))
    (c : TwilioHandle) (n : String)
    (hc : a.client = some c) (hn : a.from_number = some n) (hne : n ≠ "") :
    (a.send_whatsapp to_a message provider).2.1 =
      [⟨message, "whatsapp:" ++ n, "whatsapp:" ++ to_a⟩] := by
  unfold MessagingAgent.send_whatsapp
  rw [hc, hn]
  have hf : pyFalsyStr (some n) = false := by
    simp [pyFalsyStr]; exact hne
  simp only [hf, Bool.not_false, if_true, Option.getD_some]
  split <;> rfl

/-- Claim C6 witness: the spec's concrete numbers. -/
theorem whatsapp_call_tagged_witness :
    (MessagingAgent.send_whatsapp ⟨some cHandle, some "+15551234567"⟩
      "+15557654321" "hi" (fun _ => .ok (some twMsg1))).2.1 =
      [⟨"hi", "whatsapp:+15551234567", "whatsapp:+15557654321"⟩] := by
  rw [whatsapp_call_tagged _ _ _ _ cHandle "+15551234567" rfl rfl
    (by decide)]
  decide

/-- Claim C1, counterexample: in a configured session holding two
messages, a decode error while processing the second message makes
`read_emails` return the one summary accumulated before the fault — a
non-empty sequence, not the empty one the claim requires. -/
theorem email_read_decode_fault_partial :
    summarizeEmail rawBadSubject = .error () ∧
    (cfgAgent.read_emails cfgEnv wDecodeFault 10).1 = [sumOk1] ∧
    (cfgAgent.read_emails cfgEnv wDecodeFault 10).1 ≠ [] := by
  decide

/-- Claim C1 (amended): a failure at or before the search step (connect,
login, select, search, or the provider list call) yields an empty
sequence; a failure while processing individual messages yields exactly
the summaries accumulated before the fault, which may be non-empty. -/
theorem email_read_fault_boundary (a : EmailAgent) (env : EmailEnv)
    (w : ImapWorld) (limit : Int)
    (hconf : a.unconfigured = false)
    (hport : pyParseInt (env.IMAP_PORT.getD "993") ≠ none) :
    (sessionIds w = none → (a.read_emails env w limit).1 = []) ∧
    (∀ ids, sessionIds w = some ids →
      (a.read_emails env w limit).1 =
        okPrefixSummaries w.fetch (pySliceLast ids limit)) := by
  have hk := read_emails_fst_char a env w limit hconf hport
  constructor
  · intro hs; rw [hk, hs]
  · intro ids hs; rw [hk, hs]

/-- Claim C1 witness: the amended statement applied to a configured agent
and a session whose connect raises. -/
theorem email_read_fault_boundary_witness :
    (cfgAgent.read_emails cfgEnv wConnectFail 10).1 = [] :=
  (email_read_fault_boundary cfgAgent cfgEnv wConnectFail 10 (by decide)
    (by decide)).1 (by decide)

/-- Claim C2, counterexample: a messaging wrapper with an initialized
client but no sender number is "unconfigured" in the claim's sense, yet
`get_messages` still issues the provider list call and returns a
non-empty sequence. -/
theorem get_messages_no_sender_still_calls :
    pyFalsyStr mNoFrom.from_number = true ∧
    (mNoFrom.get_messages listOne 5).1 = [summarizeTwilio twMsg1] ∧
    (mNoFrom.get_messages listOne 5).1 ≠ [] ∧
    (mNoFrom.get_messages listOne 5).2.1 = 1 := by
  decide

/-- Claim C2 (amended): while the relevant credentials are missing, send
operations return false and retrieval operations return an empty sequence
with no provider call attempted — where "relevant" means: email
credentials for `send_email` and `read_emails`; the client, and for sends
also the sender number, for the messaging wrapper.  A missing sender
number alone does not short-circuit `get_messages`. -/
theorem unconfigured_short_circuit :
    (∀ (a : EmailAgent) to_a subject body is_html transport,
      a.unconfigured = true →
      a.send_email to_a subject body is_html transport = (false, 0, a)) ∧
    (∀ (a : EmailAgent) env w limit, a.unconfigured = true →
      a.read_emails env w limit = ([], 0, a)) ∧
    (∀ (m : MessagingAgent) to_a msg p, m.client = none →
      m.send_sms to_a msg p = (false, [], m)) ∧
    (∀ (m : MessagingAgent) to_a msg p, pyFalsyStr m.from_number = true →
      m.send_sms to_a msg p = (false, [], m)) ∧
    (∀ (m : MessagingAgent) to_a msg p, m.client = none →
      m.send_whatsapp to_a msg p = (false, [], m)) ∧
    (∀ (m : MessagingAgent) to_a msg p, pyFalsyStr m.from_number = true →
      m.send_whatsapp to_a msg p = (false, [], m)) ∧
    (∀ (m : MessagingAgent) lp limit, m.client = none →
      m.get_messages lp limit = ([], 0, m)) := by
  refine ⟨?_, ?_, ?_, ?_, ?_, ?_, ?_⟩
  · intro a t su b ih tr h
    unfold EmailAgent.unconfigured at h
    unfold EmailAgent.send_email
    rw [if_pos h]
  · intro a env w limit h
    unfold EmailAgent.unconfigured at h
    unfold EmailAgent.read_emails
    rcases hp : pyParseInt (env.IMAP_PORT.getD "993") with _ | p
    · rfl
    · rw [if_pos h]
  · intro m t g p h
    unfold MessagingAgent.send_sms
    rw [h]
  · intro m t g p h
    unfold MessagingAgent.send_sms
    rcases hc : m.client with _ | c
    · rfl
    · rw [if_pos h]
  · intro m t g p h
    unfold MessagingAgent.send_whatsapp
    rw [h]
  · intro m t g p h
    unfold MessagingAgent.send_whatsapp
    rcases hc : m.client with _ | c
    · rfl
    · simp [h]
  · intro m lp limit h
    unfold MessagingAgent.get_messages
    rw [h]

/-- Claim C2 witness: an email wrapper with no credentials refuses to
send and makes no transport call; a messaging wrapper with a client but
no sender number (the spec's scenario) refuses to send an SMS. -/
theorem unconfigured_short_circuit_witness :
    bareAgent.send_email "t@example.com" "s" "b" false (fun _ => .ok ())
      = (false, 0, bareAgent) ∧
    mNoFrom.send_sms "+15557654321" "hi" (fun _ => .ok (some twMsg1))
      = (false, [], mNoFrom) ∧
    (bareAgent.read_emails cfgEnv wThree 5) = ([], 0, bareAgent) :=
  ⟨unconfigured_short_circuit.1 bareAgent _ _ _ _ _ (by decide),
   unconfigured_short_circuit.2.2.2.1 mNoFrom _ _ _ (by decide),
   unconfigured_short_circuit.2.1 bareAgent _ _ _ (by decide)⟩

/-- Claim C3, counterexample: a transport exception raised by the `fetch`
of the second message is caught, but the operation returns the partial
one-element list, not the empty sequence (nor false) the claim's
conversion rule requires. -/
theorem email_read_fetch_fault_partial :
    wFetchFault.fetch 2 = .error () ∧
    (cfgAgent.read_emails cfgEnv wFetchFault 10).1 = [sumOk1] ∧
    (cfgAgent.read_emails cfgEnv wFetchFault 10).1 ≠ [] := by
  decide

/-- Claim C3 (amended): no exception propagates past any operation (all
operations are total functions of the oracle outcomes); a provider
exception makes every send return false, makes `get_messages` return the
empty sequence, and makes `read_emails` return the empty sequence when it
strikes before the message loop — a fault inside the loop yields the
partial accumulated sequence. -/
theorem ops_absorb_exceptions :
    (∀ (a : EmailAgent) to_a subject body is_html e,
      a.unconfigured = false →
      (a.send_email to_a subject body is_html (fun _ => .error e)).1
        = false) ∧
    (∀ (m : MessagingAgent) to_a msg e c, m.client = some c →
      (m.send_sms to_a msg (fun _ => .error e)).1 = false) ∧
    (∀ (m : MessagingAgent) to_a msg e c, m.client = some c →
      (m.send_whatsapp to_a msg (fun _ => .error e)).1 = false) ∧
    (∀ (m : MessagingAgent) limit e c, m.client = some c →
      (m.get_messages (fun _ => .error e) limit).1 = []) ∧
    (∀ (a : EmailAgent) env w limit,
      a.unconfigured = false →
      pyParseInt (env.IMAP_PORT.getD "993") ≠ none →
      sessionIds w = none → (a.read_emails env w limit).1 = []) ∧
    (∀ (a : EmailAgent) env w limit ids,
      a.unconfigured = false →
      pyParseInt (env.IMAP_PORT.getD "993") ≠ none →
      sessionIds w = some ids →
      (a.read_emails env w limit).1 =
        okPrefixSummaries w.fetch (pySliceLast ids limit)) := by
  refine ⟨?_, ?_, ?_, ?_, ?_, ?_⟩
  · intro a t su b ih e h
    unfold EmailAgent.unconfigured at h
    unfold EmailAgent.send_email
    rw [if_neg (by simp [h])]
  · intro m t g e c h
    unfold MessagingAgent.send_sms
    rw [h]
    rcases hf : pyFalsyStr m.from_number with _ | _ <;> simp [hf]
  · intro m t g e c h
    unfold MessagingAgent.send_whatsapp
    rw [h]
    rcases hf : pyFalsyStr m.from_number with _ | _ <;> simp [hf]
  · intro m limit e c h
    unfold MessagingAgent.get_messages MessagingAgent.get_messages_sync
    rw [h]
  · intro a env w limit h hp hs
    rw [read_emails_fst_char a env w limit h hp, hs]
  · intro a env w limit ids h hp hs
    rw [read_emails_fst_char a env w limit h hp, hs]

/-- Claim C3 witness: the amended statement applied to concrete agents
and always-raising oracles. -/
theorem ops_absorb_exceptions_witness :
    (cfgAgent.send_email "t@example.com" "s" "b" false
      (fun _ => .error ())).1 = false ∧
    (MessagingAgent.send_sms ⟨some cHandle, some "+15551234567"⟩
      "+15557654321" "hi" (fun _ => .error ())).1 = false ∧
    (MessagingAgent.get_messages ⟨some cHandle, some "+15551234567"⟩
      (fun _ => .error ()) 5).1 = [] :=
  ⟨ops_absorb_exceptions.1 cfgAgent _ _ _ _ _ (by decide),
   ops_absorb_exceptions.2.1 _ _ _ _ cHandle rfl,
   ops_absorb_exceptions.2.2.2.1 _ _ _ cHandle rfl⟩

/-- Claim C7: every summary returned by `read_emails` stores, as its
body, the first 500 characters of the decoded body text (`body[:500]`);
a body of at most 500 characters is stored unchanged. -/
theorem email_body_truncated_500 (a : EmailAgent) (env : EmailEnv)
    (w : ImapWorld) (limit : Int) (s : EmailSummary)
    (h : s ∈ (a.read_emails env w limit).1) :
    ∃ raw b, (∃ id, w.fetch id = .ok raw) ∧
      extractBody raw.content = .ok b ∧
      s.body.toList = b.toList.take 500 ∧
      (b.toList.length ≤ 500 → s.body = b) := by
  rcases mem_read_emails h with ⟨id, raw, hf, hs⟩
  unfold summarizeEmail at hs
  rcases hsub : raw.subject with e | subj <;> rw [hsub] at hs
  · simp at hs
  · rcases hb : extractBody raw.content with e | b <;> rw [hb] at hs
    · simp at hs
    · have hsv := Except.ok.inj hs
      refine ⟨raw, b, ⟨id, hf⟩, hb, ?_, ?_⟩
      · rw [← hsv]
        exact pyStrTake_toList b 500
      · intro hlen
        rw [← hsv]
        exact pyStrTake_of_le b 500 hlen

set_option maxRecDepth 20000 in
/-- Claim C7 witness: applied to a session holding a 501-character body,
whose summary is the 500-character prefix. -/
theorem email_body_truncated_500_witness :
    ∃ raw b, (∃ id, wLong.fetch id = .ok raw) ∧
      extractBody raw.content = .ok b ∧
      sumLong.body.toList = b.toList.take 500 ∧
      (b.toList.length ≤ 500 → sumLong.body = b) :=
  email_body_truncated_500 cfgAgent cfgEnv wLong 10 sumLong (by decide)

/-- Claim C8: with an initialized client and a truthy sender number,
`send_sms` and `send_whatsapp` return true iff the provider call returns
a message object with a non-empty sid; a provider exception (or a `None`
result) yields false. -/
theorem send_success_iff_sid (a : MessagingAgent) (to_a message : String)
    (provider : CreateCall → Except Unit (Option TwilioMsg))
    (c : TwilioHandle) (n : String)
    (hc : a.client = some c) (hn : a.from_number = some n) (hne : n ≠ "") :
    ((a.send_sms to_a message provider).1 = true ↔
      ∃ m, provider ⟨message, n, to_a⟩ = .ok (some m) ∧ m.sid ≠ "") ∧
    ((a.send_whatsapp to_a message provider).1 = true ↔
      ∃ m, provider ⟨message, "whatsapp:" ++ n, "whatsapp:" ++ to_a⟩
        = .ok (some m) ∧ m.sid ≠ "") := by
  have hf : pyFalsyStr (some n) = false := by
    simp [pyFalsyStr]; exact hne
  constructor
  · unfold MessagingAgent.send_sms
    rw [hc, hn]
    rw [if_neg (by simp [hf])]
    simp only [Option.getD_some]
    rcases hp : provider ⟨message, n, to_a⟩ with e | mm
    · simp [hp]
    · rcases mm with _ | m0 <;> simp [hp]
  · unfold MessagingAgent.send_whatsapp
    rw [hc, hn]
    simp only [hf, Bool.not_false, if_true, Option.getD_some]
    rcases hp : provider ⟨message, "whatsapp:" ++ n, "whatsapp:" ++ to_a⟩
      with e | mm
    · simp [hp]
    · rcases mm with _ | m0 <;> simp [hp]

/-- Claim C8 witness: an SMS send whose provider returns a message with a
non-empty sid returns true. -/
theorem send_success_iff_sid_witness :
    (MessagingAgent.send_sms ⟨some cHandle, some "+15551234567"⟩
      "+15557654321" "hi" (fun _ => .ok (some twMsg1))).1 = true :=
  ((send_success_iff_sid _ "+15557654321" "hi" _ cHandle "+15551234567"
    rfl rfl (by decide)).1).mpr ⟨twMsg1, rfl, by decide⟩

/-- Claim C9: every public operation of both wrappers returns the wrapper
state unchanged — the source never assigns to `self` after `__init__`, so
`smtp_server`, `smtp_port`, `email_address`, `email_password`, `client`
and `from_number` are all preserved. -/
theorem ops_preserve_config :
    (∀ (a : EmailAgent) to_a subject body is_html transport,
      (a.send_email to_a subject body is_html transport).2.2 = a) ∧
    (∀ (a : EmailAgent) env w limit,
      (a.read_emails env w limit).2.2 = a) ∧
    (∀ (m : MessagingAgent) to_a msg p,
      (m.send_sms to_a msg p).2.2 = m) ∧
    (∀ (m : MessagingAgent) to_a msg p,
      (m.send_whatsapp to_a msg p).2.2 = m) ∧
    (∀ (m : MessagingAgent) lp limit,
      (m.get_messages lp limit).2.2 = m) := by
  refine ⟨?_, ?_, ?_, ?_, ?_⟩
  · intro a t su b ih tr
    unfold EmailAgent.send_email
    repeat' (first | split | dsimp only)
  · intro a env w limit
    unfold EmailAgent.read_emails EmailAgent.read_emails_sync
    repeat' (first | split | dsimp only)
  · intro m t g p
    unfold MessagingAgent.send_sms
    repeat' (first | split | dsimp only)
  · intro m t g p
    unfold MessagingAgent.send_whatsapp
    repeat' (first | split | dsimp only)
  · intro m lp limit
    unfold MessagingAgent.get_messages MessagingAgent.get_messages_sync
    repeat' (first | split | dsimp only)

/-- Claim C10: a multipart message without a `text/plain` part yields an
empty body in its summary; a non-multipart message yields its full
decoded payload, truncated to 500 characters. -/
theorem email_body_no_plain_part (a : EmailAgent) (env : EmailEnv)
    (w : ImapWorld) (limit : Int) (s : EmailSummary)
    (h : s ∈ (a.read_emails env w limit).1) :
    ∃ raw, (∃ id, w.fetch id = .ok raw) ∧ summarizeEmail raw = .ok s ∧
      (∀ parts, raw.content = .multipart parts →
        parts.find? (fun p => p.1 == "text/plain") = none →
        s.body = "") ∧
      (∀ b, raw.content = .simple (.ok b) →
        s.body.toList = b.toList.take 500) := by
  rcases mem_read_emails h with ⟨id, raw, hf, hs⟩
  refine ⟨raw, ⟨id, hf⟩, hs, ?_, ?_⟩
  · intro parts hcont hfind
    have hb : extractBody raw.content = .ok "" := by
      rw [hcont]
      simp [extractBody, hfind]
    unfold summarizeEmail at hs
    rcases hsub : raw.subject with e | subj <;> rw [hsub] at hs
    · simp at hs
    · rw [hb] at hs
      have hsv := Except.ok.inj hs
      rw [← hsv]
      show pyStrTake "" 500 = ""
      decide
  · intro b hcont
    have hb : extractBody raw.content = .ok b := by rw [hcont]; rfl
    unfold summarizeEmail at hs
    rcases hsub : raw.subject with e | subj <;> rw [hsub] at hs
    · simp at hs
    · rw [hb] at hs
      have hsv := Except.ok.inj hs
      rw [← hsv]
      exact pyStrTake_toList b 500

/-- Claim C10 witness: applied to a session holding one HTML-only
multipart message, whose summary has an empty body. -/
theorem email_body_no_plain_part_witness :
    ∃ raw, (∃ id, wHtmlOnly.fetch id = .ok raw) ∧
      summarizeEmail raw = .ok sumHtmlOnly ∧
      (∀ parts, raw.content = .multipart parts →
        parts.find? (fun p => p.1 == "text/plain") = none →
        sumHtmlOnly.body = "") ∧
      (∀ b, raw.content = .simple (.ok b) →
        sumHtmlOnly.body.toList = b.toList.take 500) :=
  email_body_no_plain_part cfgAgent cfgEnv wHtmlOnly 10 sumHtmlOnly
    (by decide)
